import Mathlib

/-!
Verification development for the codalyzer repository: a shallow embedding of
the LLM request pipeline (src/providers/groq_provider.py), the result cache and
the analyzer facade (src/core/analyzer.py), and the response data model
(src/core/models.py).

Modelling conventions:
* Python floats are modelled as exact rationals (`Rat`), built with `Rat.mk'`
  so that every value is kernel-computable (e.g. the literal `0.8` becomes the
  reduced fraction 4/5).
* Wall-clock time is an explicit `Int` parameter (`now`), in the same unit as
  the cache TTL; `asyncio.sleep` calls are recorded as trace events.
* External collaborators are oracle parameters: the HTTP transport is a
  function from attempt index to `TransportResult`, `json.loads` is a function
  `String → Option JVal` (`none` models `json.JSONDecodeError`), `hashlib`
  key derivation is an abstract `String → String`, and the pure prompt
  templates of src/core/prompts.py are abstract string-valued functions
  (no claim depends on the template text).
* Python exceptions become explicit `Except` error values; observable side
  effects (HTTP requests, sleeps) are accumulated in an event trace.
* String primitives (`strip`, `find`, `rfind`, slicing, `lower`) are
  re-implemented structurally over character lists so that witnesses evaluate
  inside the kernel; `strip` covers ASCII whitespace.
-/

namespace Codalyzer

/-- Python-style whitespace test used by `str.strip()` (ASCII subset). -/
def isPySpace (c : Char) : Bool :=
  c = ' ' ∨ c = '\t' ∨ c = '\n' ∨ c = '\r' ∨ c.toNat = 11 ∨ c.toNat = 12

/-- Model of Python `str.strip()`: drop leading and trailing whitespace. -/
def pyStrip (s : String) : String :=
  String.mk (((s.data.dropWhile isPySpace).reverse.dropWhile isPySpace).reverse)

/-- Model of Python `str.find(c)`: index of the first occurrence, `-1` if absent. -/
def pyFind (s : String) (c : Char) : Int :=
  match s.data.findIdx? (fun ch => ch = c) with
  | some i => (i : Int)
  | none => -1

/-- Model of Python `str.rfind(c)`: index of the last occurrence, `-1` if absent. -/
def pyRFind (s : String) (c : Char) : Int :=
  match s.data.reverse.findIdx? (fun ch => ch = c) with
  | some i => ((s.data.length : Int) - 1 - (i : Int))
  | none => -1

/-- Model of the Python slice `s[a:b]` for the non-negative indices this code uses. -/
def pySlice (s : String) (a b : Int) : String :=
  String.mk ((s.data.drop a.toNat).take (b - a).toNat)

/-- Lower-casing of a string, character by character (`str.lower()` on ASCII). -/
def strLower (s : String) : String :=
  String.mk (s.data.map Char.toLower)

/-- Split a character list at every occurrence of a separator (model of `str.split(sep)`
restricted to the single-character separators this code uses). -/
def splitChar (sep : Char) : List Char → List (List Char)
  | [] => [[]]
  | x :: xs =>
    match splitChar sep xs with
    | [] => [[]]
    | cur :: rest => if x = sep then [] :: cur :: rest else (x :: cur) :: rest

/-- Python `min(a, b)` on numbers: the first argument wins ties. -/
def pyMin (a b : Rat) : Rat := if a ≤ b then a else b

/-- Python `max(a, b)` on numbers: the first argument wins ties. -/
def pyMax (a b : Rat) : Rat := if b ≤ a then a else b

/-- The float literal `0.8` (default confidence score) as an exact rational. -/
def ratFourFifths : Rat := Rat.mk' 4 5 (by decide) (by decide)

/-- The float literal `0.5` (batch pacing delay) as an exact rational. -/
def ratHalf : Rat := Rat.mk' 1 2 (by decide) (by decide)

/-- The float literal `1.5` (spec example of an out-of-range confidence). -/
def ratThreeHalves : Rat := Rat.mk' 3 2 (by decide) (by decide)

/-- The float literal `-0.2` (spec example of an out-of-range confidence). -/
def ratNegFifth : Rat := Rat.mk' (-1) 5 (by decide) (by decide)

/-- Opening brace character (written via its code point). -/
def lbrace : Char := Char.ofNat 123

/-- Closing brace character (written via its code point). -/
def rbrace : Char := Char.ofNat 125

/-- Association-list lookup, modelling Python `dict` access (keys are unique in
any dict the source builds; lookup returns the first binding). -/
def assocGet {α : Type} : List (String × α) → String → Option α
  | [], _ => none
  | (k2, v) :: rest, k => if k2 = k then some v else assocGet rest k

/-- Association-list update, modelling Python `dict` item assignment. -/
def assocSet {α : Type} : List (String × α) → String → α → List (String × α)
  | [], k, v => [(k, v)]
  | (k2, v2) :: rest, k, v =>
    if k2 = k then (k, v) :: rest else (k2, v2) :: assocSet rest k v

/-- Association-list deletion, modelling Python `del dict[key]`. -/
def assocErase {α : Type} : List (String × α) → String → List (String × α)
  | [], _ => []
  | (k2, v) :: rest, k =>
    if k2 = k then assocErase rest k else (k2, v) :: assocErase rest k

/-- Untyped JSON values, the shape of a decoded model response. -/
inductive JVal where
  | jnull
  | jbool (b : Bool)
  | jnum (q : Rat)
  | jstr (s : String)
  | jarr (items : List JVal)
  | jobj (fields : List (String × JVal))

/-- Python `dict.get(k)` on a JSON object. -/
def dictGet (fields : List (String × JVal)) (k : String) : Option JVal :=
  assocGet fields k

/-- Python `dict.get(k, default)` on a JSON object. -/
def dictGetD (fields : List (String × JVal)) (k : String) (d : JVal) : JVal :=
  (assocGet fields k).getD d

/-- Pydantic validation of a required `str` field (lax mode accepts only `str`). -/
def asStr : JVal → Option String
  | .jstr s => some s
  | _ => none

/-- Pydantic validation of an `Optional[str]` field (missing or JSON null is `None`). -/
def asOptStr : Option JVal → Option (Option String)
  | none => some none
  | some .jnull => some none
  | some (.jstr s) => some (some s)
  | some _ => none

/-- Pydantic validation of an `Optional[int]` field; integral numbers only. -/
def asOptInt : Option JVal → Option (Option Int)
  | none => some none
  | some .jnull => some none
  | some (.jnum q) => if q.den = 1 then some (some q.num) else none
  | some _ => none

/-- Pydantic validation of an `Optional[dict[str, str]]` field. -/
def asOptDictStr : Option JVal → Option (Option (List (String × String)))
  | none => some none
  | some .jnull => some none
  | some (.jobj fields) =>
    (fields.mapM (fun kv => (asStr kv.2).map (fun s => (kv.1, s)))).map some
  | some _ => none

/-- Pydantic validation of a `list[str]` field. -/
def asStrList : JVal → Option (List String)
  | .jarr items => items.mapM asStr
  | _ => none

/-- Model of `AnalysisOptions` (src/core/models.py lines 114-140). -/
structure AnalysisOptions where
  analyze_functions : Bool := true
  include_suggestions : Bool := true
  detailed_mode : Bool := true
  detect_language : Bool := true
  language_hint : Option String := none
  include_best_worst_case : Bool := false
deriving Repr, DecidableEq

/-- Model of `FunctionComplexity` (src/core/models.py lines 59-74); the field
`variables_` stands for the Python field `variables`, whose name Lean reserves. -/
structure FunctionComplexity where
  name : String
  time_complexity : String
  space_complexity : String
  explanation : String
  line_start : Option Int
  line_end : Option Int
  variables_ : Option (List (String × String))
  best_case : Option String
  worst_case : Option String
  average_case : Option String
deriving Repr, DecidableEq

/-- Model of `CodeComplexityResult` (src/core/models.py lines 77-98);
`confidence_score` is an exact rational standing for the Python float. -/
structure CodeComplexityResult where
  language : String
  overall_time_complexity : String
  overall_space_complexity : String
  summary : String
  detailed_explanation : String
  functions : List FunctionComplexity
  optimization_suggestions : List String
  confidence_score : Rat
deriving Repr, DecidableEq

/-- Model of `AnalysisError` (src/core/models.py lines 143-148). -/
structure AnalysisError where
  error_type : String
  message : String
  recoverable : Bool
deriving Repr, DecidableEq

/-- One iteration of the functions loop of `_parse_result`
(src/core/analyzer.py lines 115-130): build a `FunctionComplexity` from one
entry of the response's `functions` list, with the `dict.get` defaults of the
source; `none` models the entry raising during construction (a non-dict entry,
or a field rejected by pydantic validation). -/
def parseFunctionEntry (func_data : JVal) : Option FunctionComplexity :=
  match func_data with
  | .jobj fields => do
    let name ← asStr (dictGetD fields "name" (.jstr "unknown"))
    let tc ← asStr (dictGetD fields "time_complexity" (.jstr "Unknown"))
    let sc ← asStr (dictGetD fields "space_complexity" (.jstr "Unknown"))
    let expl ← asStr (dictGetD fields "explanation" (.jstr ""))
    let ls ← asOptInt (dictGet fields "line_start")
    let le ← asOptInt (dictGet fields "line_end")
    let vars ← asOptDictStr (dictGet fields "variables")
    let bc ← asOptStr (dictGet fields "best_case")
    let wc ← asOptStr (dictGet fields "worst_case")
    let ac ← asOptStr (dictGet fields "average_case")
    pure ⟨name, tc, sc, expl, ls, le, vars, bc, wc, ac⟩
  | _ => none

/-- The `for func_data in response.get("functions", [])` loop of `_parse_result`
(src/core/analyzer.py lines 113-130): append each successfully constructed
entry, `continue` past an entry that raises. -/
def parseFunctions : List JVal → List FunctionComplexity
  | [] => []
  | e :: rest =>
    match parseFunctionEntry e with
    | some f => f :: parseFunctions rest
    | none => parseFunctions rest

/-- Clamping of the confidence score, `min(1.0, max(0.0, v))`
(src/core/analyzer.py line 141); a non-numeric value makes Python `min`/`max`
raise `TypeError`, modelled as `none`. -/
def clampConfidence : JVal → Option Rat
  | .jnum q => some (pyMin 1 (pyMax 0 q))
  | _ => none

/-- Model of `CodeComplexityAnalyzer._parse_result` (src/core/analyzer.py lines
110-142). `none` models an uncaught exception escaping `_parse_result`: the
response not being a JSON object, a non-list `functions` value, a top-level
field rejected by pydantic validation of `CodeComplexityResult`, or a
non-numeric `confidence_score` (`TypeError` in `min`/`max`). This helper
handles a response that is a JSON object, field by field. -/
def parse_result_fields (fields : List (String × JVal)) : Option CodeComplexityResult :=
    match (match dictGetD fields "functions" (.jarr []) with
           | .jarr l => some l
           | _ => none) with
    | none => none
    | some entries =>
      match asStr (dictGetD fields "language" (.jstr "Unknown")) with
      | none => none
      | some language =>
        match asStr (dictGetD fields "overall_time_complexity" (.jstr "Unknown")) with
        | none => none
        | some otc =>
          match asStr (dictGetD fields "overall_space_complexity" (.jstr "Unknown")) with
          | none => none
          | some osc =>
            match asStr (dictGetD fields "summary" (.jstr "Analysis completed")) with
            | none => none
            | some summary =>
              match asStr (dictGetD fields "detailed_explanation" (.jstr "")) with
              | none => none
              | some expl =>
                match asStrList (dictGetD fields "optimization_suggestions" (.jarr [])) with
                | none => none
                | some suggestions =>
                  match clampConfidence
                      (dictGetD fields "confidence_score" (.jnum ratFourFifths)) with
                  | none => none
                  | some conf =>
                    some ⟨language, otc, osc, summary, expl, parseFunctions entries,
                      suggestions, conf⟩

/-- Model of `CodeComplexityAnalyzer._parse_result` (src/core/analyzer.py lines
110-142), dispatching on the response being a JSON object. -/
def parse_result : JVal → Option CodeComplexityResult
  | .jobj fields => parse_result_fields fields
  | _ => none

/-- Model of `AnalysisCache` (src/core/analyzer.py lines 24-58): a dict from
truncated-hash keys to (result, creation timestamp); `ttl` and timestamps are
integers in the unit of `ttl_minutes`. -/
structure AnalysisCache where
  cache : List (String × (CodeComplexityResult × Int))
  ttl : Int
deriving Repr, DecidableEq

/-- Model of `AnalysisCache.get` (src/core/analyzer.py lines 40-49): the key
derivation `_hash_code` is the abstract hash `h`; a fresh entry is returned
with the cache untouched, an expired entry (age not below TTL) is deleted and
absence reported. Returns the result (if any) and the cache afterwards. -/
def AnalysisCache.get (h : String → String) (c : AnalysisCache) (code : String)
    (now : Int) : Option CodeComplexityResult × AnalysisCache :=
  let key := h code
  match assocGet c.cache key with
  | some (result, timestamp) =>
    if now - timestamp < c.ttl then (some result, c)
    else (none, ⟨assocErase c.cache key, c.ttl⟩)
  | none => (none, c)

/-- Model of `AnalysisCache.set` (src/core/analyzer.py lines 51-54). -/
def AnalysisCache.set (h : String → String) (c : AnalysisCache) (code : String)
    (result : CodeComplexityResult) (now : Int) : AnalysisCache :=
  ⟨assocSet c.cache (h code) (result, now), c.ttl⟩

/-- Model of `AnalysisCache.clear` (src/core/analyzer.py lines 56-58). -/
def AnalysisCache.clear (c : AnalysisCache) : AnalysisCache :=
  ⟨[], c.ttl⟩

/-- Model of `GroqConfig` (src/providers/groq_provider.py lines 23-43); floats
are exact rationals, defaults as in the source. -/
structure GroqConfig where
  api_key : String
  model : String := "llama-3.3-70b-versatile"
  fallback_model : String := "llama-3.1-8b-instant"
  max_tokens : Nat := 4096
  temperature : Rat := Rat.mk' 1 10 (by decide) (by decide)
  timeout : Rat := 60
  max_retries : Nat := 3
deriving Repr, DecidableEq

/-- Exceptions of the provider layer: `GroqRateLimitError`, `GroqAPIError`
(src/providers/groq_provider.py lines 46-57), and the httpx transport
exceptions that escape the tenacity retry in `_make_request` (caught by the
generic `except Exception` in `complete`). -/
inductive GroqError where
  | rateLimitError (message : String) (status_code : Option Nat)
  | apiError (message : String) (status_code : Option Nat)
  | networkError (message : String)
deriving Repr, DecidableEq

/-- Python `str(e)` for the provider exceptions (their constructor message). -/
def errStr : GroqError → String
  | .rateLimitError m _ => m
  | .apiError m _ => m
  | .networkError m => m

/-- Python `str(last_error)` where `last_error : Optional[Exception]`. -/
def errStrOpt : Option GroqError → String
  | some e => errStr e
  | none => "None"

/-- Discriminates the `except GroqRateLimitError` handler from the generic
`except Exception` handler in `complete`. -/
def GroqError.is_rate_limit : GroqError → Bool
  | .rateLimitError _ _ => true
  | _ => false

/-- One chat message, `{"role": ..., "content": ...}`. -/
structure Message where
  role : String
  content : String
deriving Repr, DecidableEq

/-- Message-list assembly of `complete` (src/providers/groq_provider.py lines
193-198). -/
def buildMessages (prompt : String) (system_prompt : Option String) : List Message :=
  (match system_prompt with
   | some sp => [⟨"system", sp⟩]
   | none => []) ++ [⟨"user", prompt⟩]

/-- An HTTP response as `_make_request` observes it: the status code, and (for
a 200) the `choices[0].message.content` text and `usage.total_tokens` count;
`error_detail` is the best-effort error text extracted from a non-200 body
(src/providers/groq_provider.py lines 161-166, collapsed into the oracle). -/
structure HttpResponse where
  status_code : Nat
  content : String := ""
  total_tokens : Nat := 0
  error_detail : String := ""
deriving Repr, DecidableEq

/-- Outcome of one `_make_request` call as decided by the environment: either
an HTTP response reached the status check, or the tenacity transport retry was
exhausted by connection-level failures and an httpx exception propagates. -/
inductive TransportResult where
  | httpResponse (r : HttpResponse)
  | networkFailure (message : String)
deriving Repr, DecidableEq

/-- Status translation of `_make_request` (src/providers/groq_provider.py lines
152-172): HTTP 429 becomes `GroqRateLimitError`, any other non-200 becomes
`GroqAPIError` with the status code and detail, a 200 yields the content text
and token usage. -/
def make_request (t : TransportResult) : Except GroqError (String × Nat) :=
  match t with
  | .networkFailure msg => .error (.networkError msg)
  | .httpResponse r =>
    if r.status_code = 429 then
      .error (.rateLimitError "Rate limit exceeded. Please wait and retry." (some 429))
    else if r.status_code ≠ 200 then
      .error (.apiError ("API error (" ++ toString r.status_code ++ "): " ++ r.error_detail)
        (some r.status_code))
    else
      .ok (r.content, r.total_tokens)

/-- Observable effects: an HTTP request for a model with a message list and the
JSON-mode flag, or an `asyncio.sleep` for a duration in seconds. -/
inductive Ev where
  | request (model : String) (messages : List Message) (json_mode : Bool)
  | sleep (seconds : Rat)
deriving Repr, DecidableEq

/-- Running usage counters of `GroqProvider` (src/providers/groq_provider.py
lines 92-93). -/
structure ProviderState where
  total_tokens_used : Nat
  request_count : Nat
deriving Repr, DecidableEq

/-- The `for model in models_to_try` loop of `complete`
(src/providers/groq_provider.py lines 206-234). The transport oracle maps the
index of each `_make_request` call to its outcome; `k` counts calls made so
far. Returns the outcome, the provider counters, the event trace, and the
number of `_make_request` calls consumed. -/
def completeModels (oracle : Nat → TransportResult) (messages : List Message)
    (json_mode : Bool) (models : List String) (k : Nat)
    (last_error : Option GroqError) (st : ProviderState) :
    Except GroqError String × ProviderState × List Ev × Nat :=
  match models with
  | [] =>
    (.error (.apiError ("All models failed. Last error: " ++ errStrOpt last_error) none),
      st, [], k)
  | model :: rest =>
    match make_request (oracle k) with
    | .ok (content, tokens) =>
      (.ok (pyStrip content),
        ⟨st.total_tokens_used + tokens, st.request_count + 1⟩,
        [.request model messages json_mode], k + 1)
    | .error e =>
      if e.is_rate_limit then
        -- wait and retry with the same model (lines 219-228); note the source
        -- does not update the usage counters on this success path
        match make_request (oracle (k + 1)) with
        | .ok (content, _) =>
          (.ok (pyStrip content), st,
            [.request model messages json_mode, .sleep 2,
             .request model messages json_mode], k + 2)
        | .error e2 =>
          let (res, st2, tr, k2) := completeModels oracle messages json_mode rest (k + 2) (some e2) st
          (res, st2,
            [.request model messages json_mode, .sleep 2,
             .request model messages json_mode] ++ tr, k2)
      else
        let (res, st2, tr, k2) := completeModels oracle messages json_mode rest (k + 1) (some e) st
        (res, st2, [.request model messages json_mode] ++ tr, k2)

/-- Model of `GroqProvider.complete` (src/providers/groq_provider.py lines
174-234): assemble the messages, build the candidate model list (primary, then
the fallback when enabled and distinct), and run the model loop. -/
def complete (cfg : GroqConfig) (oracle : Nat → TransportResult) (prompt : String)
    (system_prompt : Option String) (json_mode : Bool) (use_fallback : Bool)
    (st : ProviderState) : Except GroqError String × ProviderState × List Ev :=
  let messages := buildMessages prompt system_prompt
  let models_to_try := [cfg.model] ++
    (if use_fallback && cfg.fallback_model != cfg.model then [cfg.fallback_model] else [])
  let (res, st2, tr, _) := completeModels oracle messages json_mode models_to_try 0 none st
  (res, st2, tr)

/-- JSON recovery of `complete_json` (src/providers/groq_provider.py lines
257-270), applied to the text `complete` returned: strict parse first; on
failure take the substring from the first brace to the last brace and parse
that; otherwise a `GroqAPIError` whose message carries the first 200 characters
of the text. The `json.loads` stdlib call is the parameter `p` (`none` models
`json.JSONDecodeError`). -/
def extract_json (p : String → Option JVal) (response : String) : Except GroqError JVal :=
  match p response with
  | some v => .ok v
  | none =>
    let start := pyFind response lbrace
    let stop := pyRFind response rbrace + 1
    if start ≠ -1 ∧ stop > start then
      match p (pySlice response start stop) with
      | some v => .ok v
      | none =>
        .error (.apiError ("Failed to parse JSON response: " ++ pySlice response 0 200 ++ "...")
          none)
    else
      .error (.apiError ("Failed to parse JSON response: " ++ pySlice response 0 200 ++ "...")
        none)

/-- Model of `GroqProvider.complete_json` (src/providers/groq_provider.py lines
236-270): `complete` with JSON mode requested (and the default
`use_fallback=True`), then the parse-and-recover step on the returned text. -/
def complete_json (p : String → Option JVal) (cfg : GroqConfig)
    (oracle : Nat → TransportResult) (prompt : String) (system_prompt : Option String)
    (st : ProviderState) : Except GroqError JVal × ProviderState × List Ev :=
  match complete cfg oracle prompt system_prompt true true st with
  | (.ok text, st2, tr) => (extract_json p text, st2, tr)
  | (.error e, st2, tr) => (.error e, st2, tr)

/-- Shape of the `get_stats` dict (src/providers/groq_provider.py lines
282-288). -/
structure ProviderStats where
  total_tokens : Nat
  requests : Nat
  model : String
deriving Repr, DecidableEq

/-- Model of `GroqProvider.get_stats`. -/
def get_stats (cfg : GroqConfig) (st : ProviderState) : ProviderStats :=
  ⟨st.total_tokens_used, st.request_count, cfg.model⟩

/-- The pure, deterministic collaborators of the analyzer facade, passed as an
explicit environment: the key derivation `AnalysisCache._hash_code`
(sha256 hexdigest truncated to 16 characters, abstract here), the stdlib
`json.loads`, and the prompt templates of `PromptBuilder`
(src/core/prompts.py) whose exact text no claim depends on. -/
structure Env where
  hash : String → String
  json_loads : String → Option JVal
  system_prompt : String
  build_analysis_prompt : String → AnalysisOptions → String
  build_quick_analysis_prompt : String → String

/-- State owned by a `CodeComplexityAnalyzer`: the optional result cache
(`cache_enabled=False` is `none`) and the provider's usage counters. -/
structure AnalyzerState where
  cache : Option AnalysisCache
  provider : ProviderState
deriving Repr, DecidableEq

/-- Exceptions escaping the facade operations: `ValueError` (empty code, not a
file), `FileNotFoundError`, provider errors, and `validationError` standing for
the pydantic/`TypeError` exceptions that escape `_parse_result`. -/
inductive AnalyzeErr where
  | valueError (message : String)
  | fileNotFoundError (message : String)
  | groq (e : GroqError)
  | validationError
deriving Repr, DecidableEq

/-- Python `type(e).__name__` for the modelled exceptions (used by
`analyze_batch`); `validationError` covers pydantic `ValidationError`. -/
def AnalyzeErr.type_name : AnalyzeErr → String
  | .valueError _ => "ValueError"
  | .fileNotFoundError _ => "FileNotFoundError"
  | .groq (.rateLimitError _ _) => "GroqRateLimitError"
  | .groq _ => "GroqAPIError"
  | .validationError => "ValidationError"

/-- Python `str(e)` for the modelled exceptions; the pydantic validation text
is abstracted to a fixed string. -/
def AnalyzeErr.msg : AnalyzeErr → String
  | .valueError m => m
  | .fileNotFoundError m => m
  | .groq e => errStr e
  | .validationError => "validation error"

/-- The network-and-parse phase shared verbatim by `analyze` (src/core/analyzer.py
lines 179-199) and `analyze_quick` (lines 282-295): request a JSON completion
for the prompt, parse it into a result, store a success in the cache (when the
cache is enabled). `cacheAfter` is the cache as the preceding lookup left it. -/
def run_analysis_request (env : Env) (cfg : GroqConfig) (oracle : Nat → TransportResult)
    (cacheAfter : Option AnalysisCache) (pst : ProviderState) (code2 : String)
    (prompt : String) (sys_prompt : String) (now : Int) :
    Except AnalyzeErr CodeComplexityResult × AnalyzerState × List Ev :=
  match complete_json env.json_loads cfg oracle prompt (some sys_prompt) pst with
  | (.ok v, pst2, tr) =>
    match parse_result v with
    | some result =>
      (.ok result,
        ⟨cacheAfter.map (fun c => AnalysisCache.set env.hash c code2 result now), pst2⟩, tr)
    | none => (.error .validationError, ⟨cacheAfter, pst2⟩, tr)
  | (.error e, pst2, tr) => (.error (.groq e), ⟨cacheAfter, pst2⟩, tr)

/-- Model of `CodeComplexityAnalyzer.analyze` (src/core/analyzer.py lines
144-199): reject empty or whitespace-only code before any other activity, trim
the code, consult the cache (a hit returns immediately with no events), and
otherwise build the full analysis prompt and run the request. `now` is the
current time as used for cache timestamps. -/
def analyze (env : Env) (cfg : GroqConfig) (oracle : Nat → TransportResult)
    (st : AnalyzerState) (code : String) (options : Option AnalysisOptions)
    (now : Int) : Except AnalyzeErr CodeComplexityResult × AnalyzerState × List Ev :=
  if code = "" ∨ pyStrip code = "" then
    (.error (.valueError "Code cannot be empty"), st, [])
  else
    let code2 := pyStrip code
    match st.cache with
    | some c =>
      match AnalysisCache.get env.hash c code2 now with
      | (some cached, c2) => (.ok cached, ⟨some c2, st.provider⟩, [])
      | (none, c2) =>
        run_analysis_request env cfg oracle (some c2) st.provider code2
          (env.build_analysis_prompt code2 (options.getD {})) env.system_prompt now
    | none =>
      run_analysis_request env cfg oracle none st.provider code2
        (env.build_analysis_prompt code2 (options.getD {})) env.system_prompt now

/-- Model of `CodeComplexityAnalyzer.analyze_quick` (src/core/analyzer.py lines
259-295): same empty-check and cache path as `analyze`, but with the quick
prompt template and a fixed minimal system prompt. -/
def analyze_quick (env : Env) (cfg : GroqConfig) (oracle : Nat → TransportResult)
    (st : AnalyzerState) (code : String) (now : Int) :
    Except AnalyzeErr CodeComplexityResult × AnalyzerState × List Ev :=
  if code = "" ∨ pyStrip code = "" then
    (.error (.valueError "Code cannot be empty"), st, [])
  else
    let code2 := pyStrip code
    match st.cache with
    | some c =>
      match AnalysisCache.get env.hash c code2 now with
      | (some cached, c2) => (.ok cached, ⟨some c2, st.provider⟩, [])
      | (none, c2) =>
        run_analysis_request env cfg oracle (some c2) st.provider code2
          (env.build_quick_analysis_prompt code2)
          "You are an algorithm complexity analyst. Respond with JSON only." now
    | none =>
      run_analysis_request env cfg oracle none st.provider code2
        (env.build_quick_analysis_prompt code2)
        "You are an algorithm complexity analyst. Respond with JSON only." now

/-- The extension-to-language table of `analyze_file` (src/core/analyzer.py
lines 232-254). -/
def ext_to_lang : List (String × String) :=
  [(".py", "Python"), (".js", "JavaScript"), (".ts", "TypeScript"),
   (".java", "Java"), (".cpp", "C++"), (".c", "C"), (".go", "Go"),
   (".rs", "Rust"), (".rb", "Ruby"), (".php", "PHP"), (".swift", "Swift"),
   (".kt", "Kotlin"), (".cs", "C#"), (".scala", "Scala"), (".r", "R"),
   (".m", "MATLAB"), (".jl", "Julia"), (".lua", "Lua"), (".pl", "Perl"),
   (".sh", "Shell"), (".sql", "SQL")]

/-- Model of `pathlib.Path.suffix` for POSIX-style path strings: the final
dot-segment of the last path component, empty when the last component has no
interior dot. -/
def path_suffix (path : String) : String :=
  let name := (splitChar '/' path.data).getLastD []
  match name.reverse.findIdx? (fun ch => ch = '.') with
  | some revIdx =>
    let i := name.length - 1 - revIdx
    if 0 < i ∧ i < name.length - 1 then String.mk (name.drop i) else ""
  | none => ""

/-- Python truthiness of `options.language_hint` (`None` and the empty string
are falsy). -/
def hintFalsy : Option String → Bool
  | none => true
  | some s => s = ""

/-- Filesystem oracle for `analyze_file`: existence, regular-file test and text
content per path. -/
structure FileSystem where
  path_exists : String → Bool
  is_file : String → Bool
  read_text : String → String

/-- Model of `CodeComplexityAnalyzer.analyze_file` (src/core/analyzer.py lines
201-257). The third component of the returned tuple is the value of the
caller's options object after the call (`none` when the caller passed no
options and the defaulted object stays internal): line 255 of the source
assigns `options.language_hint = ext_to_lang.get(path.suffix.lower())` on the
very object the caller passed in whenever the hint is unset or empty. -/
def analyze_file (env : Env) (cfg : GroqConfig) (oracle : Nat → TransportResult)
    (fs : FileSystem) (st : AnalyzerState) (file_path : String)
    (options : Option AnalysisOptions) (now : Int) :
    Except AnalyzeErr CodeComplexityResult × AnalyzerState × Option AnalysisOptions × List Ev :=
  if fs.path_exists file_path = false then
    (.error (.fileNotFoundError ("File not found: " ++ file_path)), st, options, [])
  else if fs.is_file file_path = false then
    (.error (.valueError ("Not a file: " ++ file_path)), st, options, [])
  else
    let code := fs.read_text file_path
    let opts := options.getD {}
    let opts2 :=
      if hintFalsy opts.language_hint then
        { opts with language_hint := assocGet ext_to_lang (strLower (path_suffix file_path)) }
      else opts
    let (res, st2, tr) := analyze env cfg oracle st code (some opts2) now
    (res, st2, options.map (fun _ => opts2), tr)

/-- One item of the `analyze_batch` result list: a result or a per-item
`AnalysisError`. -/
inductive BatchItem where
  | ok (r : CodeComplexityResult)
  | err (e : AnalysisError)
deriving Repr, DecidableEq

/-- The sequential loop of `analyze_batch` (src/core/analyzer.py lines 337-353)
with the item index threaded through: each snippet is analyzed with the oracle
and clock for its index, an exception is downgraded to a recoverable
`AnalysisError` in place, and an `asyncio.sleep(0.5)` follows every item. -/
def analyze_batch_go (env : Env) (cfg : GroqConfig)
    (oracles : Nat → Nat → TransportResult) (times : Nat → Int)
    (options : Option AnalysisOptions) (idx : Nat) (st : AnalyzerState) :
    List String → List BatchItem × AnalyzerState × List Ev
  | [] => ([], st, [])
  | code :: rest =>
    let step := analyze env cfg (oracles idx) st code options (times idx)
    let item := match step.1 with
      | .ok r => BatchItem.ok r
      | .error e => BatchItem.err ⟨e.type_name, e.msg, true⟩
    let next := analyze_batch_go env cfg oracles times options (idx + 1) step.2.1 rest
    (item :: next.1, next.2.1, step.2.2 ++ [Ev.sleep ratHalf] ++ next.2.2)

/-- Model of `CodeComplexityAnalyzer.analyze_batch` (src/core/analyzer.py lines
320-353): strictly sequential processing of the snippets, starting at item
index 0. `oracles` gives each item its transport oracle, `times` its clock
reading. -/
def analyze_batch (env : Env) (cfg : GroqConfig)
    (oracles : Nat → Nat → TransportResult) (times : Nat → Int)
    (st : AnalyzerState) (code_snippets : List String)
    (options : Option AnalysisOptions) : List BatchItem × AnalyzerState × List Ev :=
  analyze_batch_go env cfg oracles times options 0 st code_snippets

/-! Supporting lemmas -/

theorem assocGet_set_self {α : Type} (l : List (String × α)) (k : String) (v : α) :
    assocGet (assocSet l k v) k = some v := by
  induction l with
  | nil => simp [assocGet, assocSet]
  | cons hd tl ih =>
    by_cases hk : hd.1 = k
    · simp [assocGet, assocSet, hk]
    · simp [assocGet, assocSet, hk, ih]

theorem assocGet_set_ne {α : Type} (l : List (String × α)) (k k2 : String) (v : α)
    (hne : k2 ≠ k) : assocGet (assocSet l k v) k2 = assocGet l k2 := by
  have hkk : ¬ k = k2 := fun h => hne h.symm
  induction l with
  | nil => simp [assocGet, assocSet, hkk]
  | cons hd tl ih =>
    rcases hd with ⟨k3, v3⟩
    by_cases hk : k3 = k
    · subst hk
      simp [assocGet, assocSet, hkk]
    · by_cases hk2 : k3 = k2
      · subst hk2
        simp [assocGet, assocSet, hk]
      · simp [assocGet, assocSet, hk, hk2, ih]

theorem assocGet_erase_self {α : Type} (l : List (String × α)) (k : String) :
    assocGet (assocErase l k) k = none := by
  induction l with
  | nil => simp [assocGet, assocErase]
  | cons hd tl ih =>
    rcases hd with ⟨k3, v3⟩
    by_cases hk : k3 = k
    · simpa [assocErase, hk] using ih
    · simp [assocErase, assocGet, hk, ih]

theorem assocGet_erase_ne {α : Type} (l : List (String × α)) (k k2 : String)
    (hne : k2 ≠ k) : assocGet (assocErase l k) k2 = assocGet l k2 := by
  induction l with
  | nil => simp [assocGet, assocErase]
  | cons hd tl ih =>
    rcases hd with ⟨k3, v3⟩
    by_cases hk : k3 = k
    · subst hk
      have hd2 : ¬ k3 = k2 := fun h => hne h.symm
      simp [assocErase, assocGet, hd2, ih]
    · by_cases hk2 : k3 = k2
      · subst hk2
        simp [assocErase, assocGet, hk]
      · simp [assocErase, assocGet, hk, hk2, ih]

theorem parseFunctions_eq_filterMap (l : List JVal) :
    parseFunctions l = l.filterMap parseFunctionEntry := by
  induction l with
  | nil => simp [parseFunctions]
  | cons e rest ih =>
    cases he : parseFunctionEntry e <;> simp [parseFunctions, he, ih]

theorem clampConfidence_bounds (v : JVal) (q : Rat) (h : clampConfidence v = some q) :
    0 ≤ q ∧ q ≤ 1 := by
  cases v <;> simp [clampConfidence] at h
  subst h
  unfold pyMin pyMax
  constructor
  · split_ifs <;> linarith
  · split_ifs <;> linarith

theorem run_analysis_request_ok_cache (env : Env) (cfg : GroqConfig)
    (oracle : Nat → TransportResult) (cacheAfter : Option AnalysisCache)
    (pst : ProviderState) (code2 prompt sys_prompt : String) (now : Int)
    (r : CodeComplexityResult) (st2 : AnalyzerState) (tr : List Ev)
    (h : run_analysis_request env cfg oracle cacheAfter pst code2 prompt sys_prompt now =
      (.ok r, st2, tr)) :
    st2.cache = cacheAfter.map (fun c => AnalysisCache.set env.hash c code2 r now) := by
  unfold run_analysis_request at h
  rcases hcj : complete_json env.json_loads cfg oracle prompt (some sys_prompt) pst with
    ⟨res, pst2, tr2⟩
  rw [hcj] at h
  cases res with
  | ok v =>
    cases hpr : parse_result v with
    | some result =>
      simp only [hpr, Prod.mk.injEq, Except.ok.injEq] at h
      obtain ⟨hr, hst, -⟩ := h
      rw [← hst, hr]
    | none => simp [hpr] at h
  | error e => simp at h

/-! Concrete instantiation material used by the claim witnesses -/

/-- Identity stands in for the abstract hash in concrete scenarios. -/
def hashW : String → String := fun s => s

/-- A toy `json.loads`: parses exactly the text `\x7b\x7d` to the empty object. -/
def jsonW : String → Option JVal :=
  fun s => if s = "\x7b\x7d" then some (.jobj []) else none

/-- Concrete environment for witness scenarios. -/
def envW : Env :=
  ⟨hashW, jsonW, "SYS", fun c _ => c, fun c => c⟩

/-- Concrete provider configuration for witness scenarios (defaults). -/
def cfgW : GroqConfig := { api_key := "k" }

/-- Transport oracle that always answers 200 with the empty-object text. -/
def orW : Nat → TransportResult :=
  fun _ => .httpResponse { status_code := 200, content := "\x7b\x7d", total_tokens := 3 }

/-- Transport oracle whose first attempt is rate limited and whose retry
succeeds. -/
def orRLW : Nat → TransportResult :=
  fun k => if k = 0 then .httpResponse { status_code := 429 }
    else .httpResponse { status_code := 200, content := "hello", total_tokens := 5 }

/-- Transport oracle on which every attempt fails at the network level. -/
def orFailW : Nat → TransportResult := fun _ => .networkFailure "no net"

/-- Fresh analyzer state with an enabled empty cache (TTL 60). -/
def stW : AnalyzerState := ⟨some ⟨[], 60⟩, ⟨0, 0⟩⟩

/-- The all-defaults result produced by parsing the empty JSON object. -/
def resW : CodeComplexityResult :=
  ⟨"Unknown", "Unknown", "Unknown", "Analysis completed", "", [], [], ratFourFifths⟩

/-- Analyzer state after one successful uncached analysis of `"code"` at time 0
in the `envW`/`orW` scenario. -/
def stW1 : AnalyzerState := ⟨some ⟨[("code", (resW, 0))], 60⟩, ⟨3, 1⟩⟩

/-- Filesystem oracle with a universal regular file containing `print(1)`. -/
def fsW : FileSystem := ⟨fun _ => true, fun _ => true, fun _ => "print(1)"⟩

/-! Claim theorems -/

/-- C7: for code that is empty or consists only of whitespace, `analyze` and
`analyze_quick` fail with the input error `ValueError("Code cannot be empty")`
before any network activity: no event is emitted (in particular no request)
and the analyzer state, cache included, is unchanged. -/
theorem C7_empty_code_rejected (env : Env) (cfg : GroqConfig)
    (oracle : Nat → TransportResult) (st : AnalyzerState) (code : String)
    (options : Option AnalysisOptions) (now : Int)
    (h : code = "" ∨ pyStrip code = "") :
    analyze env cfg oracle st code options now =
      (.error (.valueError "Code cannot be empty"), st, []) ∧
    analyze_quick env cfg oracle st code now =
      (.error (.valueError "Code cannot be empty"), st, []) :=
  ⟨by unfold analyze; rw [if_pos h], by unfold analyze_quick; rw [if_pos h]⟩

/-- Witness for C7 at the whitespace-only code `" "`. -/
theorem C7_empty_code_rejected_witness :
    analyze envW cfgW orW stW " " none 0 =
      (.error (.valueError "Code cannot be empty"), stW, []) ∧
    analyze_quick envW cfgW orW stW " " 0 =
      (.error (.valueError "Code cannot be empty"), stW, []) :=
  C7_empty_code_rejected envW cfgW orW stW " " none 0 (Or.inr rfl)

/-- C6: cache entry invariant. An entry whose age has reached the TTL is
treated as absent by `get`: the lookup reports absence, the entry is deleted,
and every other entry is untouched. An entry younger than the TTL is returned
exactly as stored, with the cache unchanged. A lookup of an absent key changes
nothing. `set` never removes any other entry (it only writes its own key), and
`clear` empties the map — so the only removals are the lazy expiry inside `get`
and `clear`. -/
theorem C6_cache_ttl_invariant (h : String → String) (c : AnalysisCache)
    (code : String) (now : Int) :
    (∀ r ts, assocGet c.cache (h code) = some (r, ts) → c.ttl ≤ now - ts →
      AnalysisCache.get h c code now =
        (none, ⟨assocErase c.cache (h code), c.ttl⟩) ∧
      assocGet (assocErase c.cache (h code)) (h code) = none ∧
      (∀ k2, k2 ≠ h code →
        assocGet (assocErase c.cache (h code)) k2 = assocGet c.cache k2)) ∧
    (∀ r ts, assocGet c.cache (h code) = some (r, ts) → now - ts < c.ttl →
      AnalysisCache.get h c code now = (some r, c)) ∧
    (assocGet c.cache (h code) = none →
      AnalysisCache.get h c code now = (none, c)) ∧
    (∀ result tstamp k2, k2 ≠ h code →
      assocGet (AnalysisCache.set h c code result tstamp).cache k2 =
        assocGet c.cache k2) ∧
    (∀ result tstamp,
      assocGet (AnalysisCache.set h c code result tstamp).cache (h code) =
        some (result, tstamp)) ∧
    (AnalysisCache.clear c).cache = [] := by
  refine ⟨?_, ?_, ?_, ?_, ?_, rfl⟩
  · intro r ts hget hle
    refine ⟨?_, assocGet_erase_self _ _, fun k2 hk2 => assocGet_erase_ne _ _ _ hk2⟩
    simp only [AnalysisCache.get, hget]
    rw [if_neg (not_lt.mpr hle)]
  · intro r ts hget hlt
    simp only [AnalysisCache.get, hget]
    rw [if_pos hlt]
  · intro hget
    simp only [AnalysisCache.get, hget]
  · intro result tstamp k2 hk2
    exact assocGet_set_ne _ _ _ _ hk2
  · intro result tstamp
    exact assocGet_set_self _ _ _

/-- Witness for C6: with a single entry stored at time 0 and TTL 60, a lookup
at time 60 evicts and reports absence, a lookup at time 59 returns the entry. -/
theorem C6_cache_ttl_invariant_witness :
    AnalysisCache.get hashW ⟨[("k", (resW, 0))], 60⟩ "k" 60 = (none, ⟨[], 60⟩) ∧
    AnalysisCache.get hashW ⟨[("k", (resW, 0))], 60⟩ "k" 59 =
      (some resW, ⟨[("k", (resW, 0))], 60⟩) :=
  ⟨((C6_cache_ttl_invariant hashW ⟨[("k", (resW, 0))], 60⟩ "k" 60).1 resW 0 rfl
      (by decide)).1,
   (C6_cache_ttl_invariant hashW ⟨[("k", (resW, 0))], 60⟩ "k" 59).2.1 resW 0 rfl
      (by decide)⟩

/-- C2: with fallback enabled and a fallback model distinct from the primary,
a non-rate-limit failure of the primary's attempt is followed by exactly one
attempt of the fallback model: if that attempt succeeds, `complete` returns the
fallback's (trimmed) content and the trace is exactly the two requests; if it
also fails (non-rate-limit), every candidate is exhausted and `complete` fails
with the terminal `GroqAPIError` whose message wraps the last recorded error. -/
theorem C2_fallback_once_then_exhaustion (cfg : GroqConfig)
    (oracle : Nat → TransportResult) (prompt : String)
    (system_prompt : Option String) (json_mode : Bool) (st : ProviderState)
    (e0 : GroqError) (hdistinct : cfg.fallback_model ≠ cfg.model)
    (h0 : make_request (oracle 0) = .error e0)
    (h0rl : e0.is_rate_limit = false) :
    (∀ content tokens, make_request (oracle 1) = .ok (content, tokens) →
      complete cfg oracle prompt system_prompt json_mode true st =
        (.ok (pyStrip content),
         ⟨st.total_tokens_used + tokens, st.request_count + 1⟩,
         [.request cfg.model (buildMessages prompt system_prompt) json_mode,
          .request cfg.fallback_model (buildMessages prompt system_prompt) json_mode])) ∧
    (∀ e1, make_request (oracle 1) = .error e1 → e1.is_rate_limit = false →
      complete cfg oracle prompt system_prompt json_mode true st =
        (.error (.apiError ("All models failed. Last error: " ++ errStr e1) none), st,
         [.request cfg.model (buildMessages prompt system_prompt) json_mode,
          .request cfg.fallback_model (buildMessages prompt system_prompt) json_mode])) := by
  have hb : (cfg.fallback_model != cfg.model) = true := bne_iff_ne.mpr hdistinct
  constructor
  · intro content tokens h1
    unfold complete
    simp [completeModels, hb, h0, h0rl, h1, errStrOpt]
  · intro e1 h1 h1rl
    unfold complete
    simp [completeModels, hb, h0, h0rl, h1, h1rl, errStrOpt]

/-- Witness for C2: the primary model answers HTTP 500, the fallback answers
200 with content `" hi "`; `complete` returns the trimmed fallback content and
the counters advance once. -/
theorem C2_fallback_once_then_exhaustion_witness :
    complete cfgW
      (fun k => if k = 0 then .httpResponse { status_code := 500, error_detail := "d" }
        else .httpResponse { status_code := 200, content := " hi ", total_tokens := 7 })
      "p" none false true ⟨0, 0⟩ =
      (.ok "hi", ⟨7, 1⟩,
       [.request "llama-3.3-70b-versatile" [⟨"user", "p"⟩] false,
        .request "llama-3.1-8b-instant" [⟨"user", "p"⟩] false]) :=
  (C2_fallback_once_then_exhaustion cfgW
      (fun k => if k = 0 then .httpResponse { status_code := 500, error_detail := "d" }
        else .httpResponse { status_code := 200, content := " hi ", total_tokens := 7 })
      "p" none false ⟨0, 0⟩ (.apiError "API error (500): d" (some 500))
      (by decide) rfl (by decide)).1 " hi " 7 rfl

/-- C3: an HTTP 429 is translated into the rate-limit error; on a rate-limit
failure of a candidate model `complete` sleeps exactly 2 seconds and retries
the same model exactly once — a successful retry returns its trimmed content
immediately, and a failed retry moves on to the next candidate model (the
fallback), whose success is then returned. -/
theorem C3_rate_limit_wait_and_retry (cfg : GroqConfig)
    (oracle : Nat → TransportResult) (prompt : String)
    (system_prompt : Option String) (json_mode : Bool) (st : ProviderState) :
    (∀ r : HttpResponse, r.status_code = 429 →
      make_request (.httpResponse r) =
        .error (.rateLimitError "Rate limit exceeded. Please wait and retry."
          (some 429))) ∧
    (∀ e0 content tokens use_fallback,
      make_request (oracle 0) = .error e0 → e0.is_rate_limit = true →
      make_request (oracle 1) = .ok (content, tokens) →
      complete cfg oracle prompt system_prompt json_mode use_fallback st =
        (.ok (pyStrip content), st,
         [.request cfg.model (buildMessages prompt system_prompt) json_mode,
          .sleep 2,
          .request cfg.model (buildMessages prompt system_prompt) json_mode])) ∧
    (∀ e0 e1 content2 tokens2,
      cfg.fallback_model ≠ cfg.model →
      make_request (oracle 0) = .error e0 → e0.is_rate_limit = true →
      make_request (oracle 1) = .error e1 →
      make_request (oracle 2) = .ok (content2, tokens2) →
      complete cfg oracle prompt system_prompt json_mode true st =
        (.ok (pyStrip content2),
         ⟨st.total_tokens_used + tokens2, st.request_count + 1⟩,
         [.request cfg.model (buildMessages prompt system_prompt) json_mode,
          .sleep 2,
          .request cfg.model (buildMessages prompt system_prompt) json_mode,
          .request cfg.fallback_model (buildMessages prompt system_prompt) json_mode])) := by
  refine ⟨?_, ?_, ?_⟩
  · intro r h429
    simp [make_request, h429]
  · intro e0 content tokens use_fallback h0 h0rl h1
    unfold complete
    cases use_fallback <;>
      simp [completeModels, h0, h0rl, h1]
  · intro e0 e1 content2 tokens2 hdistinct h0 h0rl h1 h2
    have hb : (cfg.fallback_model != cfg.model) = true := bne_iff_ne.mpr hdistinct
    unfold complete
    simp [completeModels, hb, h0, h0rl, h1, h2]

/-- Witness for C3: a 429 on the first attempt, then a 200; `complete` sleeps
2 seconds once and returns the retried content with the counters untouched. -/
theorem C3_rate_limit_wait_and_retry_witness :
    complete cfgW orRLW "p" none false true ⟨0, 0⟩ =
      (.ok "hello", ⟨0, 0⟩,
       [.request "llama-3.3-70b-versatile" [⟨"user", "p"⟩] false,
        .sleep 2,
        .request "llama-3.3-70b-versatile" [⟨"user", "p"⟩] false]) :=
  (C3_rate_limit_wait_and_retry cfgW orRLW "p" none false ⟨0, 0⟩).2.1
    (.rateLimitError "Rate limit exceeded. Please wait and retry." (some 429))
    "hello" 5 true rfl (by decide) rfl

/-- C9 counterexample: a call to `complete` that succeeds on the one-shot
retry after a rate-limit signal leaves both usage counters unchanged — the
success neither adds the reported 5 tokens nor increments the request counter,
contradicting the claim that every successful call does so. -/
theorem C9_counterexample_retry_success_skips_counters :
    (complete cfgW orRLW "p" none false true ⟨0, 0⟩).1 = .ok "hello" ∧
    (complete cfgW orRLW "p" none false true ⟨0, 0⟩).2.1 = ⟨0, 0⟩ ∧
    get_stats cfgW (complete cfgW orRLW "p" none false true ⟨0, 0⟩).2.1 =
      ⟨0, 0, "llama-3.3-70b-versatile"⟩ :=
  ⟨rfl, rfl, rfl⟩

/-- C9 amended: a success on a candidate model's first attempt adds the
response's reported token usage to the total-tokens counter and increments the
request counter by exactly one, and `get_stats` reports exactly these counters;
this also holds for the fallback model's first attempt. A success obtained on
the one-shot same-model retry after a rate-limit signal, however, leaves both
counters unchanged. -/
theorem C9_counters_on_success (cfg : GroqConfig) (oracle : Nat → TransportResult)
    (prompt : String) (system_prompt : Option String) (json_mode : Bool)
    (use_fallback : Bool) (st : ProviderState) :
    (∀ content tokens, make_request (oracle 0) = .ok (content, tokens) →
      complete cfg oracle prompt system_prompt json_mode use_fallback st =
        (.ok (pyStrip content),
         ⟨st.total_tokens_used + tokens, st.request_count + 1⟩,
         [.request cfg.model (buildMessages prompt system_prompt) json_mode]) ∧
      get_stats cfg ⟨st.total_tokens_used + tokens, st.request_count + 1⟩ =
        ⟨st.total_tokens_used + tokens, st.request_count + 1, cfg.model⟩) ∧
    (∀ e0 content tokens, cfg.fallback_model ≠ cfg.model →
      make_request (oracle 0) = .error e0 → e0.is_rate_limit = false →
      make_request (oracle 1) = .ok (content, tokens) →
      (complete cfg oracle prompt system_prompt json_mode true st).2.1 =
        ⟨st.total_tokens_used + tokens, st.request_count + 1⟩) ∧
    (∀ e0 content tokens,
      make_request (oracle 0) = .error e0 → e0.is_rate_limit = true →
      make_request (oracle 1) = .ok (content, tokens) →
      (complete cfg oracle prompt system_prompt json_mode use_fallback st).2.1 = st) := by
  refine ⟨?_, ?_, ?_⟩
  · intro content tokens h0
    refine ⟨?_, rfl⟩
    unfold complete
    simp [completeModels, h0]
  · intro e0 content tokens hdistinct h0 h0rl h1
    have hb : (cfg.fallback_model != cfg.model) = true := bne_iff_ne.mpr hdistinct
    unfold complete
    simp [completeModels, hb, h0, h0rl, h1]
  · intro e0 content tokens h0 h0rl h1
    unfold complete
    cases use_fallback <;>
      simp [completeModels, h0, h0rl, h1]

/-- Witness for the amended C9: a first-attempt success with 3 reported tokens
moves the counters from (0, 0) to (3, 1). -/
theorem C9_counters_on_success_witness :
    complete cfgW orW "p" none false false ⟨0, 0⟩ =
      (.ok "\x7b\x7d", ⟨3, 1⟩,
       [.request "llama-3.3-70b-versatile" [⟨"user", "p"⟩] false]) :=
  ((C9_counters_on_success cfgW orW "p" none false false ⟨0, 0⟩).1
    "\x7b\x7d" 3 rfl).1

/-- A missing key makes `dict.get(k, d)` return the default. -/
theorem dictGetD_none (fields : List (String × JVal)) (k : String) (d : JVal)
    (h : dictGet fields k = none) : dictGetD fields k d = d := by
  unfold dictGetD
  unfold dictGet at h
  rw [h]
  rfl

/-- Decomposition of a successful `parse_result` run into its field equations. -/
theorem parse_result_some_elim (fields : List (String × JVal))
    (res : CodeComplexityResult) (h : parse_result_fields fields = some res) :
    ∃ entries language otc osc summary expl suggestions conf,
      (match dictGetD fields "functions" (.jarr []) with
        | .jarr l => some l
        | _ => none) = some entries ∧
      asStr (dictGetD fields "language" (.jstr "Unknown")) = some language ∧
      asStr (dictGetD fields "overall_time_complexity" (.jstr "Unknown")) = some otc ∧
      asStr (dictGetD fields "overall_space_complexity" (.jstr "Unknown")) = some osc ∧
      asStr (dictGetD fields "summary" (.jstr "Analysis completed")) = some summary ∧
      asStr (dictGetD fields "detailed_explanation" (.jstr "")) = some expl ∧
      asStrList (dictGetD fields "optimization_suggestions" (.jarr [])) = some suggestions ∧
      clampConfidence (dictGetD fields "confidence_score" (.jnum ratFourFifths)) = some conf ∧
      res = ⟨language, otc, osc, summary, expl, parseFunctions entries, suggestions, conf⟩ := by
  unfold parse_result_fields at h
  rcases he : (match dictGetD fields "functions" (.jarr []) with
    | JVal.jarr l => some l
    | _ => none) with _ | entries <;> rw [he] at h
  · exact absurd h (by simp)
  rcases hl : asStr (dictGetD fields "language" (.jstr "Unknown")) with _ | language <;>
    rw [hl] at h
  · exact absurd h (by simp)
  rcases hotc : asStr (dictGetD fields "overall_time_complexity" (.jstr "Unknown")) with
    _ | otc <;> rw [hotc] at h
  · exact absurd h (by simp)
  rcases hosc : asStr (dictGetD fields "overall_space_complexity" (.jstr "Unknown")) with
    _ | osc <;> rw [hosc] at h
  · exact absurd h (by simp)
  rcases hs : asStr (dictGetD fields "summary" (.jstr "Analysis completed")) with
    _ | summary <;> rw [hs] at h
  · exact absurd h (by simp)
  rcases hex : asStr (dictGetD fields "detailed_explanation" (.jstr "")) with _ | expl <;>
    rw [hex] at h
  · exact absurd h (by simp)
  rcases hsg : asStrList (dictGetD fields "optimization_suggestions" (.jarr [])) with
    _ | sugg <;> rw [hsg] at h
  · exact absurd h (by simp)
  rcases hcf : clampConfidence (dictGetD fields "confidence_score" (.jnum ratFourFifths)) with
    _ | conf <;> rw [hcf] at h
  · exact absurd h (by simp)
  exact ⟨entries, language, otc, osc, summary, expl, sugg, conf,
    he, rfl, rfl, rfl, rfl, rfl, rfl, rfl, (Option.some.inj h).symm⟩

/-- C4: behaviour of `complete_json` on the text a successful `complete`
returned. Strict parsing is attempted first and a strict success is returned
as is; when strict parsing fails but the substring from the first brace to the
last brace parses, that parse is returned; when no such span exists, or the
span itself does not parse, `complete_json` fails with a terminal
`GroqAPIError` whose message embeds a preview of at most the first 200
characters of the text. -/
theorem C4_complete_json_extraction (p : String → Option JVal) (cfg : GroqConfig)
    (oracle : Nat → TransportResult) (prompt : String)
    (system_prompt : Option String) (st : ProviderState) (text : String)
    (st2 : ProviderState) (tr : List Ev)
    (hc : complete cfg oracle prompt system_prompt true true st = (.ok text, st2, tr)) :
    (∀ v, p text = some v →
      complete_json p cfg oracle prompt system_prompt st = (.ok v, st2, tr)) ∧
    (∀ v, p text = none →
      pyFind text lbrace ≠ -1 → pyRFind text rbrace + 1 > pyFind text lbrace →
      p (pySlice text (pyFind text lbrace) (pyRFind text rbrace + 1)) = some v →
      complete_json p cfg oracle prompt system_prompt st = (.ok v, st2, tr)) ∧
    (p text = none →
      ¬(pyFind text lbrace ≠ -1 ∧ pyRFind text rbrace + 1 > pyFind text lbrace) →
      complete_json p cfg oracle prompt system_prompt st =
        (.error (.apiError
          ("Failed to parse JSON response: " ++ pySlice text 0 200 ++ "...") none),
         st2, tr)) ∧
    (p text = none →
      pyFind text lbrace ≠ -1 → pyRFind text rbrace + 1 > pyFind text lbrace →
      p (pySlice text (pyFind text lbrace) (pyRFind text rbrace + 1)) = none →
      complete_json p cfg oracle prompt system_prompt st =
        (.error (.apiError
          ("Failed to parse JSON response: " ++ pySlice text 0 200 ++ "...") none),
         st2, tr)) ∧
    (pySlice text 0 200).length ≤ 200 := by
  have hred : complete_json p cfg oracle prompt system_prompt st =
      (extract_json p text, st2, tr) := by
    unfold complete_json
    rw [hc]
  refine ⟨?_, ?_, ?_, ?_, ?_⟩
  · intro v hv
    rw [hred]
    unfold extract_json
    rw [hv]
  · intro v hnone hs hgt hspan
    rw [hred]
    simp only [extract_json, hnone]
    rw [if_pos ⟨hs, hgt⟩, hspan]
  · intro hnone hno
    rw [hred]
    simp only [extract_json, hnone]
    rw [if_neg hno]
  · intro hnone hs hgt hspan
    rw [hred]
    simp only [extract_json, hnone]
    rw [if_pos ⟨hs, hgt⟩, hspan]
  · have : (pySlice text 0 200).length = ((text.data.drop 0).take ((200 : Int) - 0).toNat).length := rfl
    rw [this]
    calc ((text.data.drop 0).take ((200 : Int) - 0).toNat).length
        ≤ ((200 : Int) - 0).toNat := List.length_take_le _ _
      _ ≤ 200 := by decide

/-- Transport oracle whose single response wraps the empty JSON object in
prose. -/
def orWrapW : Nat → TransportResult :=
  fun _ => .httpResponse
    { status_code := 200, content := "see \x7b\x7d done", total_tokens := 2 }

/-- Witness for C4: the text `see \x7b\x7d done` fails strict parsing, and the
brace-to-brace span is extracted and parsed. -/
theorem C4_complete_json_extraction_witness :
    complete_json jsonW cfgW orWrapW "p" none ⟨0, 0⟩ =
      (.ok (.jobj []), ⟨2, 1⟩,
       [.request "llama-3.3-70b-versatile" [⟨"user", "p"⟩] true]) :=
  (C4_complete_json_extraction jsonW cfgW orWrapW "p" none ⟨0, 0⟩
      "see \x7b\x7d done" ⟨2, 1⟩
      [.request "llama-3.3-70b-versatile" [⟨"user", "p"⟩] true] rfl).2.1
    (.jobj []) rfl (by decide) (by decide) rfl

/-- C5: `_parse_result` is defensive. The functions loop parses each entry of
the `functions` list independently (it equals an entry-wise partial map), an
entry whose construction raises is silently dropped while all other entries
keep their order; when `parse_result` succeeds the confidence score always
lies in [0, 1]; missing top-level fields default to `"Unknown"` for the
language and complexity strings, `"Analysis completed"` for the summary, empty
sequences for functions and suggestions, and 0.8 for the confidence score; and
the out-of-range confidences 1.5 and -0.2 are clamped to 1 and 0. -/
theorem C5_parse_result_defensive :
    (∀ l, parseFunctions l = l.filterMap parseFunctionEntry) ∧
    (∀ l1 e l2, parseFunctionEntry e = none →
      parseFunctions (l1 ++ e :: l2) = parseFunctions (l1 ++ l2)) ∧
    (∀ fields res, parse_result (.jobj fields) = some res →
      (0 ≤ res.confidence_score ∧ res.confidence_score ≤ 1) ∧
      (dictGet fields "language" = none → res.language = "Unknown") ∧
      (dictGet fields "overall_time_complexity" = none →
        res.overall_time_complexity = "Unknown") ∧
      (dictGet fields "overall_space_complexity" = none →
        res.overall_space_complexity = "Unknown") ∧
      (dictGet fields "summary" = none → res.summary = "Analysis completed") ∧
      (dictGet fields "functions" = none → res.functions = []) ∧
      (dictGet fields "optimization_suggestions" = none →
        res.optimization_suggestions = []) ∧
      (dictGet fields "confidence_score" = none →
        res.confidence_score = ratFourFifths)) ∧
    parse_result (.jobj [("confidence_score", .jnum ratThreeHalves)]) =
      some ⟨"Unknown", "Unknown", "Unknown", "Analysis completed", "", [], [], 1⟩ ∧
    parse_result (.jobj [("confidence_score", .jnum ratNegFifth)]) =
      some ⟨"Unknown", "Unknown", "Unknown", "Analysis completed", "", [], [], 0⟩ := by
  refine ⟨parseFunctions_eq_filterMap, ?_, ?_, by decide, by decide⟩
  · intro l1 e l2 he
    induction l1 with
    | nil => simp [parseFunctions, he]
    | cons hd tl ih =>
      cases hpe : parseFunctionEntry hd <;>
        simp [parseFunctions, hpe, ih]
  · intro fields res h
    obtain ⟨entries, language, otc, osc, summary, expl, sugg, conf,
      he, hl, hotc, hosc, hs, hex, hsg, hcf, hres⟩ := parse_result_some_elim fields res h
    subst hres
    refine ⟨clampConfidence_bounds _ _ hcf, ?_, ?_, ?_, ?_, ?_, ?_, ?_⟩
    · intro hnone
      rw [dictGetD_none _ _ _ hnone] at hl
      exact (Option.some.inj hl).symm
    · intro hnone
      rw [dictGetD_none _ _ _ hnone] at hotc
      exact (Option.some.inj hotc).symm
    · intro hnone
      rw [dictGetD_none _ _ _ hnone] at hosc
      exact (Option.some.inj hosc).symm
    · intro hnone
      rw [dictGetD_none _ _ _ hnone] at hs
      exact (Option.some.inj hs).symm
    · intro hnone
      rw [dictGetD_none _ _ _ hnone] at he
      have : entries = ([] : List JVal) := by
        simpa using (Option.some.inj he).symm
      simp [this, parseFunctions]
    · intro hnone
      rw [dictGetD_none _ _ _ hnone] at hsg
      simpa using (Option.some.inj hsg).symm
    · intro hnone
      rw [dictGetD_none _ _ _ hnone] at hcf
      have hv : pyMin 1 (pyMax 0 ratFourFifths) = ratFourFifths := by decide
      have := (Option.some.inj hcf)
      simp only [clampConfidence, Option.some.injEq] at hcf
      rw [← hcf, hv]

/-- Witness for C5: a null entry in the functions list is dropped while the
well-formed neighbour entry is kept, and the empty response object parses to
the all-defaults result whose confidence is in range. -/
theorem C5_parse_result_defensive_witness :
    parseFunctions ([] ++ JVal.jnull :: [JVal.jobj [("name", JVal.jstr "f")]]) =
      parseFunctions ([] ++ [JVal.jobj [("name", JVal.jstr "f")]]) ∧
    (0 ≤ resW.confidence_score ∧ resW.confidence_score ≤ 1) :=
  ⟨C5_parse_result_defensive.2.1 [] JVal.jnull [JVal.jobj [("name", JVal.jstr "f")]] rfl,
   (C5_parse_result_defensive.2.2.1 [] resW rfl).1⟩

/-- Structural facts about the batch loop, proved once for every start index
and state: the output list is as long as the input, every error item is
recoverable, and the trace is the concatenation of one block per item, each
block ending with the 0.5-second pacing sleep. -/
theorem analyze_batch_go_spec (env : Env) (cfg : GroqConfig)
    (oracles : Nat → Nat → TransportResult) (times : Nat → Int)
    (options : Option AnalysisOptions) (snips : List String) :
    ∀ (idx : Nat) (st : AnalyzerState),
      (analyze_batch_go env cfg oracles times options idx st snips).1.length =
        snips.length ∧
      (∀ item ∈ (analyze_batch_go env cfg oracles times options idx st snips).1,
        ∀ e, item = .err e → e.recoverable = true) ∧
      (∃ trs : List (List Ev), trs.length = snips.length ∧
        (analyze_batch_go env cfg oracles times options idx st snips).2.2 =
          (trs.map (fun t => t ++ [Ev.sleep ratHalf])).flatten) := by
  induction snips with
  | nil =>
    intro idx st
    exact ⟨rfl, by simp [analyze_batch_go], ⟨[], rfl, by simp [analyze_batch_go]⟩⟩
  | cons code rest ih =>
    intro idx st
    obtain ⟨ihlen, ihrec, trs, htrslen, htr⟩ :=
      ih (idx + 1) (analyze env cfg (oracles idx) st code options (times idx)).2.1
    refine ⟨?_, ?_, ?_⟩
    · simp only [analyze_batch_go, List.length_cons, ihlen]
    · intro item hmem e hitem
      simp only [analyze_batch_go, List.mem_cons] at hmem
      rcases hmem with hhd | htl
      · rcases hres : (analyze env cfg (oracles idx) st code options (times idx)).1 with
          r | e0 <;> rw [hres] at hhd <;> simp_all
        rw [← hitem]
      · exact ihrec item htl e hitem
    · refine ⟨(analyze env cfg (oracles idx) st code options (times idx)).2.2 :: trs,
        by simp [htrslen], ?_⟩
      simp only [analyze_batch_go, htr, List.map_cons]
      rfl

/-- C8: `analyze_batch` processes its snippets strictly sequentially and
returns one item per snippet in input order: the result list always has the
length of the input, every item that raised is replaced in place by an
`AnalysisError` with `recoverable = true`, the trace is one block per item
each followed by the fixed 0.5-second pacing sleep, and in the concrete
three-snippet shape where the second item fails the batch still processes the
third and returns [result, error, result] threaded through the evolving
state. -/
theorem C8_batch_sequential_recoverable (env : Env) (cfg : GroqConfig)
    (oracles : Nat → Nat → TransportResult) (times : Nat → Int)
    (st : AnalyzerState) (code_snippets : List String)
    (options : Option AnalysisOptions) :
    ((analyze_batch env cfg oracles times st code_snippets options).1.length =
      code_snippets.length) ∧
    (∀ item ∈ (analyze_batch env cfg oracles times st code_snippets options).1,
      ∀ e, item = .err e → e.recoverable = true) ∧
    (∃ trs : List (List Ev), trs.length = code_snippets.length ∧
      (analyze_batch env cfg oracles times st code_snippets options).2.2 =
        (trs.map (fun t => t ++ [Ev.sleep ratHalf])).flatten) ∧
    (∀ s1 s2 s3 r1 e2 r3 st1 st2 st3 tr1 tr2 tr3,
      code_snippets = [s1, s2, s3] →
      analyze env cfg (oracles 0) st s1 options (times 0) = (.ok r1, st1, tr1) →
      analyze env cfg (oracles 1) st1 s2 options (times 1) = (.error e2, st2, tr2) →
      analyze env cfg (oracles 2) st2 s3 options (times 2) = (.ok r3, st3, tr3) →
      analyze_batch env cfg oracles times st code_snippets options =
        ([.ok r1, .err ⟨e2.type_name, e2.msg, true⟩, .ok r3], st3,
         tr1 ++ [Ev.sleep ratHalf] ++ tr2 ++ [Ev.sleep ratHalf] ++ tr3 ++
           [Ev.sleep ratHalf])) := by
  obtain ⟨hlen, hrec, htr⟩ :=
    analyze_batch_go_spec env cfg oracles times options code_snippets 0 st
  refine ⟨hlen, hrec, htr, ?_⟩
  intro s1 s2 s3 r1 e2 r3 st1 st2 st3 tr1 tr2 tr3 hsn h1 h2 h3
  subst hsn
  unfold analyze_batch
  simp [analyze_batch_go, h1, h2, h3, List.append_assoc]

/-- Witness for C8: three snippets where the middle one is whitespace-only (it
raises the empty-code `ValueError`); the batch returns result, recoverable
error, result, and the 0.5-second sleep separates the items. -/
theorem C8_batch_sequential_recoverable_witness :
    analyze_batch envW cfgW (fun _ => orW) (fun _ => 0) ⟨none, ⟨0, 0⟩⟩
        ["x", " ", "y"] none =
      ([.ok resW, .err ⟨"ValueError", "Code cannot be empty", true⟩, .ok resW],
       ⟨none, ⟨6, 2⟩⟩,
       [.request "llama-3.3-70b-versatile" [⟨"system", "SYS"⟩, ⟨"user", "x"⟩] true] ++
         [Ev.sleep ratHalf] ++ [] ++ [Ev.sleep ratHalf] ++
         [.request "llama-3.3-70b-versatile" [⟨"system", "SYS"⟩, ⟨"user", "y"⟩] true] ++
         [Ev.sleep ratHalf]) :=
  (C8_batch_sequential_recoverable envW cfgW (fun _ => orW) (fun _ => 0)
      ⟨none, ⟨0, 0⟩⟩ ["x", " ", "y"] none).2.2.2
    "x" " " "y" resW (.valueError "Code cannot be empty") resW
    ⟨none, ⟨3, 1⟩⟩ ⟨none, ⟨3, 1⟩⟩ ⟨none, ⟨6, 2⟩⟩
    [.request "llama-3.3-70b-versatile" [⟨"system", "SYS"⟩, ⟨"user", "x"⟩] true] []
    [.request "llama-3.3-70b-versatile" [⟨"system", "SYS"⟩, ⟨"user", "y"⟩] true]
    rfl rfl rfl rfl

/-- C1: the cache key of `analyze` is derived only from the trimmed code text,
never from the options or any other input. After a first successful uncached
`analyze` call, any second call whose trimmed code equals the first call's —
with arbitrary different options, a completely different transport oracle, and
within the TTL — returns exactly the first call's stored result, leaves the
state untouched, and emits no event (in particular no network request). -/
theorem C1_cache_hit_ignores_options (env : Env) (cfg : GroqConfig)
    (oracle1 oracle2 : Nat → TransportResult) (c : AnalysisCache)
    (pst : ProviderState) (code1 code2 : String)
    (opts1 opts2 : Option AnalysisOptions) (t0 t1 : Int)
    (r : CodeComplexityResult) (st1 : AnalyzerState) (tr1 : List Ev)
    (hkey : assocGet c.cache (env.hash (pyStrip code1)) = none)
    (h1 : analyze env cfg oracle1 ⟨some c, pst⟩ code1 opts1 t0 = (.ok r, st1, tr1))
    (heq : pyStrip code2 = pyStrip code1)
    (httl : t1 - t0 < c.ttl) :
    analyze env cfg oracle2 st1 code2 opts2 t1 = (.ok r, st1, []) := by
  by_cases hemp : code1 = "" ∨ pyStrip code1 = ""
  · rw [analyze, if_pos hemp] at h1
    exact absurd h1 (by simp)
  · rw [analyze, if_neg hemp] at h1
    have hget : AnalysisCache.get env.hash c (pyStrip code1) t0 = (none, c) := by
      simp only [AnalysisCache.get, hkey]
    simp only [hget] at h1
    have hcache1 : st1.cache =
        some (AnalysisCache.set env.hash c (pyStrip code1) r t0) := by
      simpa using run_analysis_request_ok_cache env cfg oracle1 (some c) pst
        (pyStrip code1) (env.build_analysis_prompt (pyStrip code1) (opts1.getD {}))
        env.system_prompt t0 r st1 tr1 h1
    have hne2 : ¬ (code2 = "" ∨ pyStrip code2 = "") := by
      rcases not_or.mp hemp with ⟨-, h2e⟩
      rintro (hc | hc)
      · subst hc
        exact h2e (heq.symm.trans rfl)
      · exact h2e (heq ▸ hc)
    rw [analyze, if_neg hne2, hcache1]
    have hget2 : AnalysisCache.get env.hash
        (AnalysisCache.set env.hash c (pyStrip code1) r t0) (pyStrip code2) t1 =
        (some r, AnalysisCache.set env.hash c (pyStrip code1) r t0) := by
      simp only [AnalysisCache.get, AnalysisCache.set, heq, assocGet_set_self]
      rw [if_pos httl]
    simp only [hget2]
    have hst : (⟨some (AnalysisCache.set env.hash c (pyStrip code1) r t0),
        st1.provider⟩ : AnalyzerState) = st1 := by
      rw [← hcache1]
    rw [hst]

/-- Witness for C1: a first call on `" code "` stores the default result; a
second call on `"code"` with different options and a dead network returns the
stored result with an empty trace. -/
theorem C1_cache_hit_ignores_options_witness :
    analyze envW cfgW orFailW stW1 "code" (some { detailed_mode := false }) 30 =
      (.ok resW, stW1, []) :=
  C1_cache_hit_ignores_options envW cfgW orW orFailW ⟨[], 60⟩ ⟨0, 0⟩
    " code " "code" none (some { detailed_mode := false }) 0 30 resW stW1
    [.request "llama-3.3-70b-versatile" [⟨"system", "SYS"⟩, ⟨"user", "code"⟩] true]
    rfl rfl rfl (by decide)

/-- C10 counterexample: `analyze_file` on a `.py` path with a caller-supplied
options object whose `language_hint` is unset mutates that object in place
(src/core/analyzer.py line 255): after the call the caller's options carry
`language_hint = "Python"`, so they are not value-equal to their pre-call
value. -/
theorem C10_counterexample_options_mutated :
    (analyze_file envW cfgW orW fsW stW "dir/main.py" (some {}) 0).2.2.1 =
      some { language_hint := some "Python" } ∧
    (analyze_file envW cfgW orW fsW stW "dir/main.py" (some {}) 0).2.2.1 ≠
      some ({} : AnalysisOptions) ∧
    ({} : AnalysisOptions).language_hint = none :=
  ⟨rfl, by decide, rfl⟩

/-- C10 amended: `analyze_file` leaves a caller-supplied options object
unchanged when its `language_hint` is set and non-empty, and also on the
missing-path and not-a-file error paths; but when the hint is unset or empty
and both file checks pass, the call overwrites the caller's `language_hint` in
place with the extension-table lookup for the path's lower-cased suffix
(possibly `None` for an unknown extension), leaving every other field
unchanged. -/
theorem C10_options_mutation_characterised (env : Env) (cfg : GroqConfig)
    (oracle : Nat → TransportResult) (fs : FileSystem) (st : AnalyzerState)
    (file_path : String) (o : AnalysisOptions) (now : Int) :
    (hintFalsy o.language_hint = false →
      (analyze_file env cfg oracle fs st file_path (some o) now).2.2.1 = some o) ∧
    (fs.path_exists file_path = false ∨ fs.is_file file_path = false →
      (analyze_file env cfg oracle fs st file_path (some o) now).2.2.1 = some o) ∧
    (hintFalsy o.language_hint = true → fs.path_exists file_path = true →
      fs.is_file file_path = true →
      (analyze_file env cfg oracle fs st file_path (some o) now).2.2.1 =
        some { o with
          language_hint := assocGet ext_to_lang (strLower (path_suffix file_path)) }) := by
  refine ⟨?_, ?_, ?_⟩
  · intro hhint
    unfold analyze_file
    rcases hex : fs.path_exists file_path with _ | _
    · simp
    · rcases hisf : fs.is_file file_path with _ | _
      · simp
      · simp [hhint]
  · rintro (hex | hisf)
    · unfold analyze_file
      simp [hex]
    · unfold analyze_file
      rcases hex : fs.path_exists file_path with _ | _
      · simp
      · simp [hisf]
  · intro hhint hex hisf
    unfold analyze_file
    simp [hex, hisf, hhint]

/-- Witness for the amended C10: a set, non-empty hint survives the call
unchanged, and an unset hint is overwritten from the `.py` suffix. -/
theorem C10_options_mutation_characterised_witness :
    (analyze_file envW cfgW orW fsW stW "dir/main.py"
        (some { language_hint := some "C" }) 0).2.2.1 =
      some ({ language_hint := some "C" } : AnalysisOptions) ∧
    (analyze_file envW cfgW orW fsW stW "dir/main.py" (some {}) 0).2.2.1 =
      some ({ language_hint :=
        assocGet ext_to_lang (strLower (path_suffix "dir/main.py")) } : AnalysisOptions) :=
  ⟨(C10_options_mutation_characterised envW cfgW orW fsW stW "dir/main.py"
      { language_hint := some "C" } 0).1 rfl,
   (C10_options_mutation_characterised envW cfgW orW fsW stW "dir/main.py"
      {} 0).2.2 rfl rfl rfl⟩

end Codalyzer
